import Mathlib

/-!
Shallow embedding of the solar-charge-switch controller
(src/solar_charge_switch.py and src/web_app.py).

Modelling choices:
* Python floats (power values, epoch timestamps from `time.time()`) are
  embedded as rationals `ℚ`; Python ints as `Nat`/`Int`.
* Python `int(x)` truncates toward zero; `pytrunc` embeds it.
* Wall-clock times of day (`datetime.time`) are embedded as seconds since
  midnight (`Nat`); the lexicographic comparison of `datetime.time` values
  coincides with `≤`/`<` on seconds-since-midnight.
* Within one loop iteration the code calls `time.time()` several times; all
  those calls of a single cycle are embedded as one timestamp `t`.
* Network collaborators are embedded as oracles supplied to the cycle
  function: the power reading as `Option ℚ` (`none` = read failure, as in
  `get_solaredge_power` returning `None`) and the outcome a `set_hue_state`
  call would have as a boolean `actuationOk`.
-/

namespace SolarChargeSwitch

/-- Python `int(q)` for a rational: truncation toward zero. -/
def pytrunc (q : ℚ) : ℤ :=
  if 0 ≤ q then q.floor else q.ceil

/-- Embeds `config["electrical"]` (floats as rationals). -/
structure ElectricalConfig where
  grid_voltage_v : ℚ
  max_current_a : ℚ
  safety_margin : ℚ
  hysteresis : ℚ
  deriving DecidableEq, Repr

/-- Embeds `config["sampling"]` (integer fields). -/
structure SamplingConfig where
  window_s : Nat
  sample_interval_s : Nat
  require_stable_on_s : Nat
  require_stable_off_s : Nat
  min_on_time_s : Nat
  deriving DecidableEq, Repr

/-- Embeds `config["control"]`; `manual_socket_state` is `none` when the key
is absent (`config["control"].get("manual_socket_state")` yields `None`). -/
structure ControlConfig where
  auto_mode : Bool
  manual_socket_state : Option Bool
  deriving DecidableEq, Repr

/-- Embeds `config["night_mode"]`; `start`/`end_` are the parsed
`datetime.time` values, as seconds since midnight. -/
structure NightConfig where
  enabled : Bool
  start : Nat
  end_ : Nat
  deriving DecidableEq, Repr

/-- The configuration snapshot read at the start of every cycle. -/
structure Config where
  electrical : ElectricalConfig
  sampling : SamplingConfig
  control : ControlConfig
  night_mode : NightConfig
  deriving DecidableEq, Repr

/-- Embeds `calculate_thresholds` (src/solar_charge_switch.py lines 139-145):
`on_threshold = int(V * A * margin)`; `off_threshold = int(on_threshold * (1 - hysteresis))`. -/
def calculate_thresholds (elec : ElectricalConfig) : ℤ × ℤ :=
  let on_threshold := pytrunc (elec.grid_voltage_v * elec.max_current_a * elec.safety_margin)
  let off_threshold := pytrunc ((on_threshold : ℚ) * (1 - elec.hysteresis))
  (on_threshold, off_threshold)

/-- Embeds `is_night` (src/solar_charge_switch.py lines 114-128), with the
night configuration passed explicitly and `now` the time of day in seconds. -/
def is_night (nc : NightConfig) (now : Nat) : Bool :=
  if nc.enabled = false then false
  else if nc.start < nc.end_ then decide (nc.start ≤ now ∧ now < nc.end_)
  else decide (nc.start ≤ now ∨ now < nc.end_)

/-- Embeds `deque(maxlen=cap).append`: the new element goes to the right and
elements are dropped from the left until the length is at most `cap`. -/
def pushCap (cap : Nat) (buf : List ℚ) (x : ℚ) : List ℚ :=
  let b := buf ++ [x]
  if b.length ≤ cap then b else b.drop (b.length - cap)

/-- Embeds `statistics.mean` on a nonempty list of rationals. -/
def listMean (l : List ℚ) : ℚ :=
  l.sum / l.length

/-- Insertion into a sorted list, the auxiliary step of sorting. -/
def insort (x : ℚ) : List ℚ → List ℚ
  | [] => [x]
  | y :: ys => if x ≤ y then x :: y :: ys else y :: insort x ys

/-- Ascending insertion sort, embedding the sort performed by
`statistics.median`. -/
def sortQ (l : List ℚ) : List ℚ :=
  l.foldr insort []

/-- Embeds `statistics.median`: middle element of the sorted list for odd
length, average of the two middle elements for even length. -/
def listMedian (l : List ℚ) : ℚ :=
  let s := sortQ l
  let n := s.length
  if n % 2 = 1 then s.getD (n / 2) 0
  else (s.getD (n / 2 - 1) 0 + s.getD (n / 2) 0) / 2

/-- Embeds `buffer_size = config["sampling"]["window_s"] // config["sampling"]["sample_interval_s"]`
(src/solar_charge_switch.py line 277). -/
def bufferSize (cfg : Config) : Nat :=
  cfg.sampling.window_s / cfg.sampling.sample_interval_s

/-- The mutable loop variables of `main` (src/solar_charge_switch.py lines
278-285): `power_buffer`, `stable_on_since`, `stable_off_since`,
`last_switch_time`, `socket_on`. -/
structure LoopState where
  socket_on : Bool
  stable_on_since : Option ℚ
  stable_off_since : Option ℚ
  last_switch_time : Option ℚ
  power_buffer : List ℚ
  deriving DecidableEq, Repr

/-- Embeds the Python idiom `x or t` applied to an optional float `x`
(src/solar_charge_switch.py lines 342 and 358,
`stable_on_since or time.time()` / `stable_off_since or time.time()`):
both `None` and the falsy value `0.0` yield `t`. -/
def pyOr (x : Option ℚ) (t : ℚ) : ℚ :=
  match x with
  | none => t
  | some v => if v = 0 then t else v

/-- The buffer after `power_buffer.append(power)` in a cycle
(src/solar_charge_switch.py line 313). -/
def newBuffer (cfg : Config) (s : LoopState) (p : ℚ) : List ℚ :=
  pushCap (bufferSize cfg) s.power_buffer p

/-- `avg_w` of a cycle (src/solar_charge_switch.py line 314):
`mean(power_buffer) if len(power_buffer) > 0 else power`, taken after the append. -/
def cycleAvg (cfg : Config) (s : LoopState) (p : ℚ) : ℚ :=
  let buf := newBuffer cfg s p
  if 0 < buf.length then listMean buf else p

/-- `med_w` of a cycle (src/solar_charge_switch.py line 315). -/
def cycleMed (cfg : Config) (s : LoopState) (p : ℚ) : ℚ :=
  let buf := newBuffer cfg s p
  if 0 < buf.length then listMedian buf else p

/-- The observable outcome of one cycle: the updated loop variables, the
`set_hue_state` calls made (target states, in order), and the row passed to
`log_csv` — `(power, avg_w, med_w)` — when one is written. -/
structure CycleResult where
  state : LoopState
  requests : List Bool
  record : Option (ℚ × ℚ × ℚ)
  deriving DecidableEq, Repr

/-- Embeds one iteration of the `while _running` loop of `main`
(src/solar_charge_switch.py lines 288-368): manual override, power read,
buffer append and statistics, CSV row, night suppression, and the automatic
ON/OFF evaluations, in the source's order. `tod` is the time of day used by
`is_night`; `t` the epoch timestamp `time.time()`; `reading` the result of
`get_solaredge_power`; `actuationOk` whether a `set_hue_state` call succeeds. -/
def mainStep (cfg : Config) (tod : Nat) (t : ℚ) (reading : Option ℚ)
    (actuationOk : Bool) (s : LoopState) : CycleResult :=
  if cfg.control.auto_mode = false ∧ cfg.control.manual_socket_state.isSome = true then
    -- manual control override (lines 298-305)
    let m := cfg.control.manual_socket_state.getD false
    if s.socket_on ≠ m then
      if actuationOk then
        ⟨{ s with socket_on := m, last_switch_time := some t }, [m], none⟩
      else ⟨s, [m], none⟩
    else ⟨s, [], none⟩
  else
    match reading with
    | none => ⟨s, [], none⟩
    | some p =>
      let avg := cycleAvg cfg s p
      let row : Option (ℚ × ℚ × ℚ) := some (p, avg, cycleMed cfg s p)
      let nb := newBuffer cfg s p
      if cfg.control.auto_mode = true ∧ is_night cfg.night_mode tod = true then
        -- night mode handling (lines 325-332)
        if s.socket_on = true then
          if actuationOk then
            ⟨{ s with power_buffer := nb, socket_on := false, last_switch_time := some t }, [false], row⟩
          else ⟨{ s with power_buffer := nb }, [false], row⟩
        else ⟨{ s with power_buffer := nb }, [], row⟩
      else if cfg.control.auto_mode = false then
        -- skip automatic control (lines 335-337)
        ⟨{ s with power_buffer := nb }, [], row⟩
      else if s.socket_on = false then
        -- automatic ON evaluation (lines 340-350)
        if ((calculate_thresholds cfg.electrical).1 : ℚ) ≤ avg then
          let since := pyOr s.stable_on_since t
          if (cfg.sampling.require_stable_on_s : ℚ) ≤ t - since then
            if actuationOk then
              ⟨{ s with power_buffer := nb, socket_on := true, last_switch_time := some t, stable_on_since := none }, [true], row⟩
            else
              ⟨{ s with power_buffer := nb, stable_on_since := none }, [true], row⟩
          else
            ⟨{ s with power_buffer := nb, stable_on_since := some since }, [], row⟩
        else
          ⟨{ s with power_buffer := nb, stable_on_since := none }, [], row⟩
      else
        -- automatic OFF evaluation (lines 352-366)
        if avg ≤ ((calculate_thresholds cfg.electrical).2 : ℚ) ∧
            (s.last_switch_time = none ∨
              (cfg.sampling.min_on_time_s : ℚ) ≤ t - s.last_switch_time.getD 0) then
          let since := pyOr s.stable_off_since t
          if (cfg.sampling.require_stable_off_s : ℚ) ≤ t - since then
            if actuationOk then
              ⟨{ s with power_buffer := nb, socket_on := false, last_switch_time := some t, stable_off_since := none }, [false], row⟩
            else
              ⟨{ s with power_buffer := nb, stable_off_since := none }, [false], row⟩
          else
            ⟨{ s with power_buffer := nb, stable_off_since := some since }, [], row⟩
        else
          ⟨{ s with power_buffer := nb, stable_off_since := none }, [], row⟩

/-- Outcome of startup configuration loading: either the process starts with a
configuration, or it exits (`sys.exit(1)`). -/
inductive StartupResult where
  | started (cfg : Config)
  | fatalExit
  deriving DecidableEq, Repr

/-- Embeds `load_config` (src/solar_charge_switch.py lines 43-58): the JSON
file either parses (`some cfg`) or does not (`none`: missing file, invalid
JSON, or another read error, all of which `sys.exit(1)`). A successfully
parsed configuration is returned as-is; no field of it is validated. -/
def load_config (parsed : Option Config) : StartupResult :=
  match parsed with
  | some cfg => StartupResult.started cfg
  | none => StartupResult.fatalExit

/-- The names bound at top level by `src/solar_charge_switch.py` (its
`def` statements, in source order). -/
def solar_charge_switch_defs : List String :=
  ["load_config", "get_config", "save_config", "update_config",
   "setup_logging", "is_night", "hue_headers", "calculate_thresholds",
   "get_solaredge_power", "get_hue_state", "set_hue_state",
   "init_csv", "log_csv", "signal_handler", "main"]

/-- The names `src/web_app.py` imports from `solar_charge_switch`
(lines 21-25). -/
def web_app_imports : List String :=
  ["get_config", "save_config", "update_config", "load_config",
   "get_solaredge_power", "get_hue_state", "set_hue_state",
   "calculate_thresholds", "cleanup_old_logs"]

/-- The routes `src/web_app.py` registers on the Flask app. -/
def web_app_routes : List String :=
  ["/", "/api/status", "/api/config", "/api/socket", "/api/auto_mode",
   "/api/logs", "/api/logs/cleanup"]

/-- Outcome of executing the module body of `src/web_app.py`. -/
inductive WebAppLoad where
  | loaded
  | importError (missing : String)
  deriving DecidableEq, Repr

/-- Python semantics of `from solar_charge_switch import (...)` at the top of
`src/web_app.py`: the first requested name not bound by the source module
raises `ImportError`, aborting the module body. -/
def load_web_app : WebAppLoad :=
  match web_app_imports.find? (fun n => !(solar_charge_switch_defs.contains n)) with
  | some n => WebAppLoad.importError n
  | none => WebAppLoad.loaded

/-- An endpoint of the web application can run only if the module body of
`src/web_app.py` executed, registering its route. -/
def endpoint_available (route : String) : Bool :=
  match load_web_app with
  | WebAppLoad.loaded => web_app_routes.contains route
  | WebAppLoad.importError _ => false

/-! ### Helper lemmas -/

/-- Batteries' `Rat.floor` agrees with Mathlib's `Int.floor` on `ℚ`. -/
theorem ratFloor_eq_intFloor (q : ℚ) : q.floor = ⌊q⌋ := by
  rw [Rat.floor_def', Rat.floor_def]

/-- On nonnegative rationals, Python truncation is the floor. -/
theorem pytrunc_eq_floor {q : ℚ} (h : 0 ≤ q) : pytrunc q = ⌊q⌋ := by
  rw [pytrunc, if_pos h, ratFloor_eq_intFloor]

/-- Appending to a capped buffer yields length `min (old + 1) cap`. -/
theorem pushCap_length (cap : Nat) (buf : List ℚ) (x : ℚ) :
    (pushCap cap buf x).length = min (buf.length + 1) cap := by
  unfold pushCap
  simp only [List.length_append, List.length_cons, List.length_nil]
  split <;> rename_i h <;> simp [List.length_drop] <;> omega

/-- A capped buffer never exceeds its capacity after an append. -/
theorem pushCap_length_le (cap : Nat) (buf : List ℚ) (x : ℚ) :
    (pushCap cap buf x).length ≤ cap := by
  rw [pushCap_length]; omega

/-- Over any sequence of appends, a capped buffer stays within capacity. -/
theorem foldl_pushCap_length_le (cap : Nat) (samples : List ℚ) (buf : List ℚ)
    (h : buf.length ≤ cap) :
    (samples.foldl (pushCap cap) buf).length ≤ cap := by
  induction samples generalizing buf with
  | nil => simpa using h
  | cons x xs ih =>
      simp only [List.foldl_cons]
      exact ih _ (pushCap_length_le cap buf x)

/-- At capacity, an append evicts exactly the oldest element. -/
theorem pushCap_evicts_oldest (cap : Nat) (buf : List ℚ) (x : ℚ)
    (hc : 0 < cap) (hfull : buf.length = cap) :
    pushCap cap buf x = buf.tail ++ [x] := by
  cases buf with
  | nil => simp at hfull; omega
  | cons y ys =>
      simp only [List.length_cons] at hfull
      simp only [pushCap]
      rw [if_neg (by simp; omega)]
      have hdrop : ((y :: ys) ++ [x]).length - cap = 1 := by simp; omega
      rw [hdrop]
      simp

/-! ### Claim theorems -/

/-- C3: for every electrical configuration with positive `gridVoltageV` and
`maxCurrentA`, `safetyMargin ∈ (0,1]` and `hysteresis ∈ [0,1)`,
`calculate_thresholds` returns `⌊V * A * margin⌋` and
`⌊onThreshold * (1 - hysteresis)⌋`, two integers with
`0 ≤ offThreshold ≤ onThreshold`. -/
theorem C3_thresholds (ec : ElectricalConfig)
    (hv : 0 < ec.grid_voltage_v) (ha : 0 < ec.max_current_a)
    (hm : 0 < ec.safety_margin) (hm1 : ec.safety_margin ≤ 1)
    (hh0 : 0 ≤ ec.hysteresis) (hh1 : ec.hysteresis < 1) :
    calculate_thresholds ec =
      (⌊ec.grid_voltage_v * ec.max_current_a * ec.safety_margin⌋,
        ⌊(⌊ec.grid_voltage_v * ec.max_current_a * ec.safety_margin⌋ : ℚ) * (1 - ec.hysteresis)⌋) ∧
    0 ≤ (calculate_thresholds ec).2 ∧
    (calculate_thresholds ec).2 ≤ (calculate_thresholds ec).1 := by
  have hprod : (0:ℚ) < ec.grid_voltage_v * ec.max_current_a * ec.safety_margin := by positivity
  have hOn : pytrunc (ec.grid_voltage_v * ec.max_current_a * ec.safety_margin)
      = ⌊ec.grid_voltage_v * ec.max_current_a * ec.safety_margin⌋ := pytrunc_eq_floor hprod.le
  have hOnNonneg : 0 ≤ ⌊ec.grid_voltage_v * ec.max_current_a * ec.safety_margin⌋ :=
    Int.floor_nonneg.mpr hprod.le
  have h1h : (0:ℚ) ≤ 1 - ec.hysteresis := by linarith
  have hOffArg : (0:ℚ) ≤
      (⌊ec.grid_voltage_v * ec.max_current_a * ec.safety_margin⌋ : ℚ) * (1 - ec.hysteresis) :=
    mul_nonneg (by exact_mod_cast hOnNonneg) h1h
  have hOff : pytrunc ((⌊ec.grid_voltage_v * ec.max_current_a * ec.safety_margin⌋ : ℚ) * (1 - ec.hysteresis))
      = ⌊(⌊ec.grid_voltage_v * ec.max_current_a * ec.safety_margin⌋ : ℚ) * (1 - ec.hysteresis)⌋ :=
    pytrunc_eq_floor hOffArg
  have heq : calculate_thresholds ec =
      (⌊ec.grid_voltage_v * ec.max_current_a * ec.safety_margin⌋,
        ⌊(⌊ec.grid_voltage_v * ec.max_current_a * ec.safety_margin⌋ : ℚ) * (1 - ec.hysteresis)⌋) := by
    simp only [calculate_thresholds]
    rw [hOn, hOff]
  refine ⟨heq, ?_, ?_⟩
  · rw [heq]
    exact Int.floor_nonneg.mpr hOffArg
  · rw [heq]
    have hle : (⌊ec.grid_voltage_v * ec.max_current_a * ec.safety_margin⌋ : ℚ) * (1 - ec.hysteresis)
        ≤ (⌊ec.grid_voltage_v * ec.max_current_a * ec.safety_margin⌋ : ℚ) := by
      have hcast : (0:ℚ) ≤ (⌊ec.grid_voltage_v * ec.max_current_a * ec.safety_margin⌋ : ℚ) := by
        exact_mod_cast hOnNonneg
      nlinarith
    calc ⌊(⌊ec.grid_voltage_v * ec.max_current_a * ec.safety_margin⌋ : ℚ) * (1 - ec.hysteresis)⌋
        ≤ ⌊(⌊ec.grid_voltage_v * ec.max_current_a * ec.safety_margin⌋ : ℚ)⌋ := Int.floor_le_floor hle
      _ = ⌊ec.grid_voltage_v * ec.max_current_a * ec.safety_margin⌋ := Int.floor_intCast _

/-- C3 witness: the theorem instantiated at grid voltage 230 V, max current
16 A, safety margin 0.9, hysteresis 0.1. -/
theorem C3_witness :
    calculate_thresholds ⟨230, 16, 9/10, 1/10⟩ =
      (⌊(230:ℚ) * 16 * (9/10)⌋, ⌊((⌊(230:ℚ) * 16 * (9/10)⌋ : ℚ)) * (1 - 1/10)⌋) ∧
    0 ≤ (calculate_thresholds ⟨230, 16, 9/10, 1/10⟩).2 ∧
    (calculate_thresholds ⟨230, 16, 9/10, 1/10⟩).2 ≤ (calculate_thresholds ⟨230, 16, 9/10, 1/10⟩).1 :=
  C3_thresholds ⟨230, 16, 9/10, 1/10⟩ (by with_unfolding_all decide)
    (by with_unfolding_all decide) (by with_unfolding_all decide)
    (by with_unfolding_all decide) (by with_unfolding_all decide)
    (by with_unfolding_all decide)

/-- C4: `is_night` returns `start ≤ now < end` for non-wrapping windows,
`now ≥ start ∨ now < end` for wrapping ones (start inclusive, end exclusive),
false when disabled; for start=22:00, end=06:00 it is true at 23:59, 00:00
and 05:59 and false at 06:00 and 21:59 (times in seconds since midnight). -/
theorem C4_is_night_spec (nc : NightConfig) (now : Nat) :
    (nc.enabled = true → nc.start < nc.end_ →
      (is_night nc now = true ↔ (nc.start ≤ now ∧ now < nc.end_))) ∧
    (nc.enabled = true → nc.end_ ≤ nc.start →
      (is_night nc now = true ↔ (nc.start ≤ now ∨ now < nc.end_))) ∧
    (nc.enabled = false → is_night nc now = false) ∧
    (is_night ⟨true, 79200, 21600⟩ 86340 = true ∧
      is_night ⟨true, 79200, 21600⟩ 0 = true ∧
      is_night ⟨true, 79200, 21600⟩ 21540 = true ∧
      is_night ⟨true, 79200, 21600⟩ 21600 = false ∧
      is_night ⟨true, 79200, 21600⟩ 79140 = false) := by
  refine ⟨?_, ?_, ?_, by decide⟩
  · intro he hlt
    simp [is_night, he, hlt]
  · intro he hge
    simp [is_night, he, Nat.not_lt.mpr hge]
  · intro he
    simp [is_night, he]

/-- C4 witness: the wrap-around characterization instantiated at the
22:00-06:00 window and midnight. -/
theorem C4_witness :
    is_night ⟨true, 79200, 21600⟩ 0 = true ↔ (79200 ≤ 0 ∨ 0 < 21600) :=
  (C4_is_night_spec ⟨true, 79200, 21600⟩ 0).2.1 rfl (by decide)

/-- A configuration with a non-positive grid voltage, used to exercise the
absent startup validation. -/
def cfgBad : Config := ⟨⟨-2, 2, 1, 1/2⟩, ⟨10, 10, 0, 0, 0⟩, ⟨true, none⟩, ⟨false, 0, 0⟩⟩

/-- C9 counterexample: a parsed configuration with `grid_voltage_v = -2` is
accepted at startup unchanged, and `calculate_thresholds` produces the value
`(-4, -2)` on it instead of failing fast — the pair even violates
`offThreshold ≤ onThreshold`. -/
theorem C9_counterexample :
    load_config (some cfgBad) = StartupResult.started cfgBad ∧
    calculate_thresholds cfgBad.electrical = (-4, -2) ∧
    ¬((calculate_thresholds cfgBad.electrical).2 ≤ (calculate_thresholds cfgBad.electrical).1) := by
  refine ⟨rfl, ?_, ?_⟩ <;> with_unfolding_all decide

/-- C9 amended: startup is fatal only for a missing or unparseable
configuration file; any parsed configuration — including non-positive
electrical parameters and any night window — is accepted with no validation,
and `calculate_thresholds` totally computes the truncated products for every
input rather than failing fast. -/
theorem C9_amended (cfg : Config) :
    load_config (some cfg) = StartupResult.started cfg ∧
    load_config none = StartupResult.fatalExit ∧
    calculate_thresholds cfg.electrical =
      (pytrunc (cfg.electrical.grid_voltage_v * cfg.electrical.max_current_a *
          cfg.electrical.safety_margin),
        pytrunc ((pytrunc (cfg.electrical.grid_voltage_v * cfg.electrical.max_current_a *
            cfg.electrical.safety_margin) : ℚ) * (1 - cfg.electrical.hysteresis))) :=
  ⟨rfl, rfl, rfl⟩

/-- C10: the module body of `src/web_app.py` raises `ImportError` on
`cleanup_old_logs`, which `solar_charge_switch` does not define, so no web
endpoint — including `/api/logs/cleanup` — can ever run. -/
theorem C10_web_app_import_fails :
    load_web_app = WebAppLoad.importError "cleanup_old_logs" ∧
    (∀ route : String, endpoint_available route = false) :=
  ⟨rfl, fun _ => rfl⟩

/-- Small electrical configuration for concrete cycles: thresholds (4, 2). -/
def ecS : ElectricalConfig := ⟨2, 2, 1, 1/2⟩

/-- Auto-mode configuration, window 10 s / interval 10 s (capacity 1),
`require_stable_on_s = 10`, night mode disabled. -/
def cfgA : Config := ⟨ecS, ⟨10, 10, 10, 0, 0⟩, ⟨true, none⟩, ⟨false, 0, 0⟩⟩

/-- Load OFF, stable-on timer running since epoch 1 (a truthy timestamp). -/
def stA : LoopState := ⟨false, some 1, none, none, []⟩

/-- Load OFF, stable-on timer holding the falsy timestamp 0.0. -/
def stZ : LoopState := ⟨false, some 0, none, none, []⟩

/-- Load OFF with no running timers. -/
def stD : LoopState := ⟨false, none, none, none, []⟩

/-- Auto-mode configuration with `min_on_time_s = 300` and
`require_stable_off_s = 0`, window 60 s / interval 10 s, night disabled. -/
def cfgB : Config := ⟨ecS, ⟨60, 10, 0, 0, 300⟩, ⟨true, none⟩, ⟨false, 0, 0⟩⟩

/-- Load switched ON at epoch 0. -/
def stB : LoopState := ⟨true, none, none, some 0, []⟩

/-- Manual-mode configuration requesting the socket ON. -/
def cfgC : Config := ⟨ecS, ⟨60, 10, 0, 0, 0⟩, ⟨false, some true⟩, ⟨false, 0, 0⟩⟩

/-- Load OFF with both debounce timers running. -/
def stC : LoopState := ⟨false, some 3, some 4, none, []⟩

/-- C1 counterexample: an automatic ON evaluation at `cfgA`/`stA` with power 5
at epoch 11, the timer running since epoch 1, reaches the stability duration
(11 - 1 = 10 ≥ 10) and attempts actuation; the actuation fails
(`actuationOk = false`), the load state is indeed not updated, but the
running debounce timer `stable_on_since = some 1` IS cleared, contradicting
the claim that it is preserved. -/
theorem C1_counterexample :
    (mainStep cfgA 0 11 (some 5) false stA).requests = [true] ∧
    (mainStep cfgA 0 11 (some 5) false stA).state.socket_on = false ∧
    stA.stable_on_since = some 1 ∧
    (mainStep cfgA 0 11 (some 5) false stA).state.stable_on_since = none := by
  with_unfolding_all decide

/-- C1 amended: when an automatic ON or OFF actuation request fails, the load
state and `last_switch_time` are unchanged, but the active debounce timer is
cleared all the same (the clearing is unconditional once the stability
duration was reached and the request was emitted), so accumulated stability
time is lost rather than preserved. -/
theorem C1_amended (cfg : Config) (tod : Nat) (t p : ℚ) (s : LoopState)
    (hauto : cfg.control.auto_mode = true)
    (hnight : is_night cfg.night_mode tod = false) :
    (s.socket_on = false →
      ((calculate_thresholds cfg.electrical).1 : ℚ) ≤ cycleAvg cfg s p →
      (cfg.sampling.require_stable_on_s : ℚ) ≤ t - pyOr s.stable_on_since t →
      (mainStep cfg tod t (some p) false s).requests = [true] ∧
      (mainStep cfg tod t (some p) false s).state.socket_on = false ∧
      (mainStep cfg tod t (some p) false s).state.last_switch_time = s.last_switch_time ∧
      (mainStep cfg tod t (some p) false s).state.stable_on_since = none) ∧
    (s.socket_on = true →
      (cycleAvg cfg s p ≤ ((calculate_thresholds cfg.electrical).2 : ℚ) ∧
        (s.last_switch_time = none ∨
          (cfg.sampling.min_on_time_s : ℚ) ≤ t - s.last_switch_time.getD 0)) →
      (cfg.sampling.require_stable_off_s : ℚ) ≤ t - pyOr s.stable_off_since t →
      (mainStep cfg tod t (some p) false s).requests = [false] ∧
      (mainStep cfg tod t (some p) false s).state.socket_on = true ∧
      (mainStep cfg tod t (some p) false s).state.last_switch_time = s.last_switch_time ∧
      (mainStep cfg tod t (some p) false s).state.stable_off_since = none) := by
  constructor
  · intro hoff hge helapsed
    simp [mainStep, hauto, hnight, hoff, hge, helapsed]
  · intro hon hcond helapsed
    simp [mainStep, hauto, hnight, hon, hcond, helapsed]

/-- C1 witness: the amended ON case instantiated at `cfgA`, `stA`, power 5,
epoch 11, failing actuation. -/
theorem C1_witness :
    (mainStep cfgA 0 11 (some 5) false stA).requests = [true] ∧
    (mainStep cfgA 0 11 (some 5) false stA).state.socket_on = false ∧
    (mainStep cfgA 0 11 (some 5) false stA).state.last_switch_time = stA.last_switch_time ∧
    (mainStep cfgA 0 11 (some 5) false stA).state.stable_on_since = none :=
  (C1_amended cfgA 0 11 5 stA rfl rfl).1 rfl
    (by with_unfolding_all decide) (by with_unfolding_all decide)

/-- C2: in an automatic cycle (auto mode, not night) with the load ON and
less than `min_on_time_s` elapsed since `last_switch_time`, no actuation is
requested and the stable-off timer is cleared rather than started — whatever
the power reading, so in particular when the average is at or below the OFF
threshold. -/
theorem C2_min_on_guard (cfg : Config) (tod : Nat) (t t0 p : ℚ) (ok : Bool) (s : LoopState)
    (hauto : cfg.control.auto_mode = true)
    (hnight : is_night cfg.night_mode tod = false)
    (hon : s.socket_on = true)
    (hlast : s.last_switch_time = some t0)
    (hguard : t - t0 < (cfg.sampling.min_on_time_s : ℚ)) :
    (mainStep cfg tod t (some p) ok s).requests = [] ∧
    (mainStep cfg tod t (some p) ok s).state.stable_off_since = none ∧
    (mainStep cfg tod t (some p) ok s).state.socket_on = true ∧
    (mainStep cfg tod t (some p) ok s).state.last_switch_time = some t0 := by
  have hng : ¬ ((cfg.sampling.min_on_time_s : ℚ) ≤ t - t0) := not_le.mpr hguard
  simp [mainStep, hauto, hnight, hon, hlast, hng]

/-- C2 witness: `min_on_time_s = 300`, `require_stable_off_s = 0`, load
switched ON at epoch 0, power 0 (below the OFF threshold 2) at epoch 60:
no OFF request. -/
theorem C2_witness :
    (mainStep cfgB 0 60 (some 0) true stB).requests = [] ∧
    (mainStep cfgB 0 60 (some 0) true stB).state.stable_off_since = none ∧
    (mainStep cfgB 0 60 (some 0) true stB).state.socket_on = true ∧
    (mainStep cfgB 0 60 (some 0) true stB).state.last_switch_time = some 0 :=
  C2_min_on_guard cfgB 0 60 0 0 true stB rfl (by decide) rfl rfl
    (by with_unfolding_all decide)

/-- C5 counterexample: a successful manual switch (manual mode, target ON,
load OFF) at `stC`, whose debounce timers are `some 3` and `some 4`, updates
the load state but leaves both timers untouched — they do not become unset
as the claim states. -/
theorem C5_counterexample :
    (mainStep cfgC 0 9 none true stC).state.socket_on = true ∧
    (mainStep cfgC 0 9 none true stC).state.stable_on_since = some 3 ∧
    (mainStep cfgC 0 9 none true stC).state.stable_off_since = some 4 ∧
    ¬((mainStep cfgC 0 9 none true stC).state.stable_on_since = none ∧
      (mainStep cfgC 0 9 none true stC).state.stable_off_since = none) := by
  with_unfolding_all decide

/-- C5 amended: with auto mode off, `manual_socket_state` set and differing
from the current load state, a successful manual switch updates the load
state to the manual target and sets `last_switch_time`, but leaves both
debounce timers (and the power buffer) unchanged — it does not clear them. -/
theorem C5_amended (cfg : Config) (tod : Nat) (t : ℚ) (reading : Option ℚ)
    (s : LoopState) (m : Bool)
    (hauto : cfg.control.auto_mode = false)
    (hm : cfg.control.manual_socket_state = some m)
    (hdiff : s.socket_on ≠ m) :
    (mainStep cfg tod t reading true s).requests = [m] ∧
    (mainStep cfg tod t reading true s).state.socket_on = m ∧
    (mainStep cfg tod t reading true s).state.last_switch_time = some t ∧
    (mainStep cfg tod t reading true s).state.stable_on_since = s.stable_on_since ∧
    (mainStep cfg tod t reading true s).state.stable_off_since = s.stable_off_since ∧
    (mainStep cfg tod t reading true s).state.power_buffer = s.power_buffer := by
  simp [mainStep, hauto, hm, hdiff]

/-- C5 witness: the amended manual-override behaviour at `cfgC`/`stC`. -/
theorem C5_witness :
    (mainStep cfgC 0 9 none true stC).requests = [true] ∧
    (mainStep cfgC 0 9 none true stC).state.socket_on = true ∧
    (mainStep cfgC 0 9 none true stC).state.last_switch_time = some 9 ∧
    (mainStep cfgC 0 9 none true stC).state.stable_on_since = stC.stable_on_since ∧
    (mainStep cfgC 0 9 none true stC).state.stable_off_since = stC.stable_off_since ∧
    (mainStep cfgC 0 9 none true stC).state.power_buffer = stC.power_buffer :=
  C5_amended cfgC 0 9 none stC true rfl rfl (by decide)

/-- C6 counterexample: at `cfgA`/`stZ` the timer has run since epoch 0, the
average 5 is above the threshold 4, and at epoch 10 the elapsed time since
`stableOnSince` (10 - 0 = 10) has reached `require_stable_on_s = 10`, so the
claim demands an ON decision; but `stable_on_since or time.time()` treats
the falsy timestamp 0.0 as unset, so the program restarts the timer at 10
and emits no request. -/
theorem C6_counterexample :
    stZ.stable_on_since = some 0 ∧
    ((calculate_thresholds cfgA.electrical).1 : ℚ) ≤ cycleAvg cfgA stZ 5 ∧
    (cfgA.sampling.require_stable_on_s : ℚ) ≤ (10:ℚ) - 0 ∧
    (mainStep cfgA 0 10 (some 5) true stZ).requests = [] ∧
    (mainStep cfgA 0 10 (some 5) true stZ).state.stable_on_since = some 10 := by
  with_unfolding_all decide

/-- C6 amended: in the automatic ON evaluation (auto mode, not night, load
OFF): an average below the ON threshold produces no request and fully resets
`stable_on_since`; an average at or above it starts or continues the timer —
except that a timer holding the falsy timestamp 0.0 is treated as unset by
the `or` idiom and restarted at the current time — and an ON request is
emitted exactly when the elapsed time since the timer value so obtained
reaches `require_stable_on_s`. -/
theorem C6_amended (cfg : Config) (tod : Nat) (t p : ℚ) (ok : Bool) (s : LoopState)
    (hauto : cfg.control.auto_mode = true)
    (hnight : is_night cfg.night_mode tod = false)
    (hoff : s.socket_on = false) :
    ((cycleAvg cfg s p < ((calculate_thresholds cfg.electrical).1 : ℚ)) →
      (mainStep cfg tod t (some p) ok s).requests = [] ∧
      (mainStep cfg tod t (some p) ok s).state.stable_on_since = none) ∧
    ((((calculate_thresholds cfg.electrical).1 : ℚ) ≤ cycleAvg cfg s p ∧
        t - pyOr s.stable_on_since t < (cfg.sampling.require_stable_on_s : ℚ)) →
      (mainStep cfg tod t (some p) ok s).requests = [] ∧
      (mainStep cfg tod t (some p) ok s).state.stable_on_since = some (pyOr s.stable_on_since t)) ∧
    ((((calculate_thresholds cfg.electrical).1 : ℚ) ≤ cycleAvg cfg s p ∧
        (cfg.sampling.require_stable_on_s : ℚ) ≤ t - pyOr s.stable_on_since t) →
      (mainStep cfg tod t (some p) ok s).requests = [true] ∧
      (mainStep cfg tod t (some p) ok s).state.stable_on_since = none) := by
  refine ⟨?_, ?_, ?_⟩
  · intro hlt
    simp [mainStep, hauto, hnight, hoff, not_le.mpr hlt]
  · intro ⟨hge, hlt⟩
    simp [mainStep, hauto, hnight, hoff, hge, not_le.mpr hlt]
  · intro ⟨hge, helapsed⟩
    cases ok <;> simp [mainStep, hauto, hnight, hoff, hge, helapsed]

/-- C6 witness: with no timer running and average 5 ≥ threshold 4 at epoch 7,
the timer starts at 7 (elapsed 0 < 10) and no ON request is emitted. -/
theorem C6_witness :
    (mainStep cfgA 0 7 (some 5) true stD).requests = [] ∧
    (mainStep cfgA 0 7 (some 5) true stD).state.stable_on_since =
      some (pyOr stD.stable_on_since 7) :=
  (C6_amended cfgA 0 7 5 true stD rfl rfl rfl).2.1
    ⟨by with_unfolding_all decide, by with_unfolding_all decide⟩

/-- C7: every cycle emits at most one actuation request, and never both an ON
and an OFF request — the manual, night, automatic-ON and automatic-OFF
branches are mutually exclusive, the last two being gated on the current
load state. -/
theorem C7_single_request (cfg : Config) (tod : Nat) (t : ℚ) (reading : Option ℚ)
    (ok : Bool) (s : LoopState) :
    (mainStep cfg tod t reading ok s).requests.length ≤ 1 ∧
    ¬(true ∈ (mainStep cfg tod t reading ok s).requests ∧
      false ∈ (mainStep cfg tod t reading ok s).requests) := by
  have hlen : (mainStep cfg tod t reading ok s).requests.length ≤ 1 := by
    cases reading <;> simp only [mainStep] <;> split_ifs <;> simp
  refine ⟨hlen, ?_⟩
  rintro ⟨ht, hf⟩
  rcases hreq : (mainStep cfg tod t reading ok s).requests with _ | ⟨b, l⟩
  · rw [hreq] at ht; simp at ht
  · rw [hreq] at ht hf hlen
    simp at hlen
    subst hlen
    simp at ht hf
    exact Bool.noConfusion (ht.symm.trans hf)

/-- C8: with `sample_interval_s ≤ window_s` the buffer capacity
`window_s / sample_interval_s` is at least 1; over any sequence of appends
the buffer never exceeds that capacity; a cycle at capacity evicts the
oldest sample; and the mean and median recorded by a cycle are computed
exactly over the samples the window holds after the append. -/
theorem C8_window (cfg : Config) (tod : Nat) (t p : ℚ) (ok : Bool) (s : LoopState)
    (hsi : 0 < cfg.sampling.sample_interval_s)
    (hws : cfg.sampling.sample_interval_s ≤ cfg.sampling.window_s)
    (hman : ¬(cfg.control.auto_mode = false ∧ cfg.control.manual_socket_state.isSome = true)) :
    1 ≤ bufferSize cfg ∧
    (∀ samples : List ℚ, (samples.foldl (pushCap (bufferSize cfg)) []).length ≤ bufferSize cfg) ∧
    (mainStep cfg tod t (some p) ok s).state.power_buffer = newBuffer cfg s p ∧
    (mainStep cfg tod t (some p) ok s).state.power_buffer.length ≤ bufferSize cfg ∧
    (s.power_buffer.length = bufferSize cfg → newBuffer cfg s p = s.power_buffer.tail ++ [p]) ∧
    (mainStep cfg tod t (some p) ok s).record =
      some (p, listMean ((mainStep cfg tod t (some p) ok s).state.power_buffer),
        listMedian ((mainStep cfg tod t (some p) ok s).state.power_buffer)) := by
  have hcap : 1 ≤ bufferSize cfg := (Nat.one_le_div_iff hsi).mpr hws
  have hbuf : (mainStep cfg tod t (some p) ok s).state.power_buffer = newBuffer cfg s p := by
    simp only [mainStep]
    rw [if_neg hman]
    split_ifs <;> simp
  have hnblen : 0 < (newBuffer cfg s p).length := by
    rw [newBuffer, pushCap_length]
    omega
  have havg : cycleAvg cfg s p = listMean (newBuffer cfg s p) := by
    rw [cycleAvg, if_pos hnblen]
  have hmed : cycleMed cfg s p = listMedian (newBuffer cfg s p) := by
    rw [cycleMed, if_pos hnblen]
  have hrec : (mainStep cfg tod t (some p) ok s).record =
      some (p, cycleAvg cfg s p, cycleMed cfg s p) := by
    simp only [mainStep]
    rw [if_neg hman]
    split_ifs <;> simp
  refine ⟨hcap, ?_, hbuf, ?_, ?_, ?_⟩
  · intro samples
    exact foldl_pushCap_length_le _ samples [] (by simp)
  · rw [hbuf, newBuffer]
    exact pushCap_length_le _ _ _
  · intro hfull
    exact pushCap_evicts_oldest _ _ _ (by omega) hfull
  · rw [hrec, havg, hmed, hbuf]

/-- C8 witness: the window invariants instantiated at `cfgB` (capacity 6)
with power 5 appended to an empty buffer. -/
theorem C8_witness :
    1 ≤ bufferSize cfgB ∧
    (∀ samples : List ℚ, (samples.foldl (pushCap (bufferSize cfgB)) []).length ≤ bufferSize cfgB) ∧
    (mainStep cfgB 0 0 (some 5) true stB).state.power_buffer = newBuffer cfgB stB 5 ∧
    (mainStep cfgB 0 0 (some 5) true stB).state.power_buffer.length ≤ bufferSize cfgB ∧
    (stB.power_buffer.length = bufferSize cfgB → newBuffer cfgB stB 5 = stB.power_buffer.tail ++ [5]) ∧
    (mainStep cfgB 0 0 (some 5) true stB).record =
      some (5, listMean ((mainStep cfgB 0 0 (some 5) true stB).state.power_buffer),
        listMedian ((mainStep cfgB 0 0 (some 5) true stB).state.power_buffer)) :=
  C8_window cfgB 0 0 5 true stB (by decide) (by decide) (by decide)

end SolarChargeSwitch
